import Mathlib

/-!
Shallow embedding of the ZKP login core of this repository
(src/service/zkp.go and src/controller/zkp.go), with theorems checking the
natural-language specification against the code.

Remote chain calls, the account store and the session layer are external
effects; they are modelled as explicit oracle parameters (`Except`-valued
fields of environment structures), while every piece of logic that lives in
the repository's own source is translated function-by-function.  Go functions
returning `(T, error)` become Lean functions returning `T × Option String`
or `Except String T`; a Go panic is modelled by the explicit
`GoOutcome.panics` constructor.
-/

namespace Zkp

/-! ### Go string primitives used by service/zkp.go -/

/-- Go `unicode.IsSpace`: the Unicode White_Space property, which is what
`strings.TrimSpace` trims from both ends. -/
def goIsSpace (c : Char) : Bool :=
  let n := c.toNat
  decide ((9 ≤ n ∧ n ≤ 13) ∨ n = 32 ∨ n = 0x85 ∨ n = 0xA0 ∨ n = 0x1680 ∨
    (0x2000 ≤ n ∧ n ≤ 0x200A) ∨ n = 0x2028 ∨ n = 0x2029 ∨ n = 0x202F ∨
    n = 0x205F ∨ n = 0x3000)

/-- Go `strings.TrimSpace`: drop White_Space characters from both ends. -/
def goTrimSpace (cs : List Char) : List Char :=
  ((cs.dropWhile goIsSpace).reverse.dropWhile goIsSpace).reverse

/-- The four invisible characters removed by the `strings.ReplaceAll` calls at
the top of `ParseZkpCode`: U+200B, U+200C, U+200D, U+FEFF. -/
def stripInvisible (cs : List Char) : List Char :=
  cs.filter (fun c =>
    !(c == Char.ofNat 0x200B || c == Char.ofNat 0x200C ||
      c == Char.ofNat 0x200D || c == Char.ofNat 0xFEFF))

/-- Go `strings.Split(s, ",")` on rune lists: `""` yields `[""]`, separators
produce empty fields. -/
def splitComma : List Char → List (List Char)
  | [] => [[]]
  | ',' :: rest => [] :: splitComma rest
  | c :: rest =>
    match splitComma rest with
    | [] => [[c]]
    | p :: ps => (c :: p) :: ps

/-! ### Go `math/big` integer scanning -/

/-- Value of a single digit character in bases up to 16 (as in Go's
`math/big` scanner). -/
def digitVal (c : Char) : Option Nat :=
  if '0' ≤ c ∧ c ≤ '9' then some (c.toNat - '0'.toNat)
  else if 'a' ≤ c ∧ c ≤ 'f' then some (c.toNat - 'a'.toNat + 10)
  else if 'A' ≤ c ∧ c ≤ 'F' then some (c.toNat - 'A'.toNat + 10)
  else none

/-- Digits of the given base with Go integer-literal underscore separators:
the remaining characters must be `('_'? digit)*` and be fully consumed.
An underscore must be followed by a digit; the caller guarantees that the
character before the first underscore position is a digit or a base prefix. -/
def digitsRest (base : Nat) : List Char → Nat → Option Nat
  | [], acc => some acc
  | '_' :: c :: rest, acc =>
    match digitVal c with
    | some v => if v < base then digitsRest base (c :: rest).tail (acc * base + v) else none
    | none => none
  | ['_'], _ => none
  | c :: rest, acc =>
    match digitVal c with
    | some v => if v < base then digitsRest base rest (acc * base + v) else none
    | none => none

/-- Digits of the given base with no separators allowed (Go `SetString` with
an explicit base rejects underscores); requires at least one digit and full
consumption. -/
def digitsPlain (base : Nat) : List Char → Nat → Option Nat
  | [], acc => some acc
  | c :: rest, acc =>
    match digitVal c with
    | some v => if v < base then digitsPlain base rest (acc * base + v) else none
    | none => none

/-- The unsigned part of Go `big.Int.SetString(s, 0)`: base auto-detection
with `0b`/`0o`/`0x` prefixes, a bare leading `0` meaning octal, decimal
otherwise, and underscore separators permitted only between a base prefix
and a digit or between successive digits.  A field with no prefix must
therefore start with a digit: a leading underscore is a misplaced
separator and an error in Go's scanner. -/
def mantissa0 : List Char → Option Nat
  | [] => none
  | '0' :: rest =>
    match rest with
    | [] => some 0
    | 'x' :: r2 => if r2.isEmpty then none else digitsRest 16 r2 0
    | 'X' :: r2 => if r2.isEmpty then none else digitsRest 16 r2 0
    | 'b' :: r2 => if r2.isEmpty then none else digitsRest 2 r2 0
    | 'B' :: r2 => if r2.isEmpty then none else digitsRest 2 r2 0
    | 'o' :: r2 => if r2.isEmpty then none else digitsRest 8 r2 0
    | 'O' :: r2 => if r2.isEmpty then none else digitsRest 8 r2 0
    | _ => digitsRest 8 rest 0
  | c :: rest =>
    match digitVal c with
    | some v => if v < 10 then digitsRest 10 (c :: rest) 0 else none
    | none => none

/-- Go `new(big.Int).SetString(s, 0)`: optional sign, then `mantissa0`.
`none` models the `ok = false` return. -/
def goSetString0 (cs : List Char) : Option Int :=
  match cs with
  | '+' :: rest => (mantissa0 rest).map Int.ofNat
  | '-' :: rest => (mantissa0 rest).map (fun n => -(n : Int))
  | rest => (mantissa0 rest).map Int.ofNat

/-- Go `new(big.Int).SetString(s, 10)`: optional sign, then plain decimal
digits (no prefixes, no underscores, at least one digit). -/
def goSetString10 (cs : List Char) : Option Int :=
  match cs with
  | '+' :: rest => if rest.isEmpty then none else (digitsPlain 10 rest 0).map Int.ofNat
  | '-' :: rest => if rest.isEmpty then none else (digitsPlain 10 rest 0).map (fun n => -(n : Int))
  | rest => if rest.isEmpty then none else (digitsPlain 10 rest 0).map Int.ofNat

/-! ### Decimal rendering (Go `big.Int.String`) -/

/-- Decimal digits of `n`, most significant first, via explicit fuel so the
definition is structurally recursive. -/
def natDecAux (fuel : Nat) (n : Nat) : List Char :=
  match fuel with
  | 0 => []
  | fuel + 1 =>
    if n < 10 then [Char.ofNat (48 + n)]
    else natDecAux fuel (n / 10) ++ [Char.ofNat (48 + n % 10)]

/-- Decimal rendering of a natural number. -/
def natDec (n : Nat) : String := ⟨natDecAux (n + 1) n⟩

/-- Go `big.Int.String()`: decimal with a leading minus sign for negatives. -/
def bigIntString (i : Int) : String :=
  if i < 0 then "-" ++ natDec i.natAbs else natDec i.natAbs

/-! ### ParseZkpCode (src/service/zkp.go lines 130-166) -/

/-- The proof payload: `A` (2 values), `B` (2x2 values), `C` (2 values) and
the single `Input` value, exactly the Go `ZkpPayload` struct with the
`[1]*big.Int` input array flattened to one integer. -/
structure ZkpPayload where
  A : Int × Int
  B : (Int × Int) × (Int × Int)
  C : Int × Int
  Input : Int
deriving DecidableEq

/-- The Go parse loop: each field through `SetString(part, 0)`, failing with
the message naming the index of the first unparsable field. -/
def parseValues (i : Nat) : List (List Char) → Except String (List Int)
  | [] => .ok []
  | p :: ps =>
    match goSetString0 p with
    | none => .error ("invalid zkpCode: failed to parse value at index " ++ natDec i)
    | some v =>
      match parseValues (i + 1) ps with
      | .error e => .error e
      | .ok vs => .ok (v :: vs)

/-- The cleaned, comma-split, per-field-trimmed fields of the input, exactly
as `ParseZkpCode` computes them before parsing. -/
def cleanedParts (code : String) : List (List Char) :=
  (splitComma (goTrimSpace (stripInvisible code.data))).map goTrimSpace

/-- `ParseZkpCode` from src/service/zkp.go: strip invisible characters, trim,
split on commas, require exactly 9 fields, parse each with base
auto-detection, and assemble positionally.  (The Go code indexes the
length-9 values slice; `getD` is total indexing under the proved length.) -/
def ParseZkpCode (code : String) : Except String ZkpPayload :=
  if (cleanedParts code).length ≠ 9 then
    .error "invalid zkpCode: expected 9 comma-separated values"
  else
    match parseValues 0 (cleanedParts code) with
    | .error e => .error e
    | .ok values =>
      .ok { A := (values.getD 0 0, values.getD 1 0)
          , B := ((values.getD 2 0, values.getD 3 0), (values.getD 4 0, values.getD 5 0))
          , C := (values.getD 6 0, values.getD 7 0)
          , Input := values.getD 8 0 }

/-- The nine scalar values of a payload read back in the order
`A[0], A[1], B[0][0], B[0][1], B[1][0], B[1][1], C[0], C[1], Input[0]`. -/
def readBack (p : ZkpPayload) : List Int :=
  [p.A.1, p.A.2, p.B.1.1, p.B.1.2, p.B.2.1, p.B.2.2, p.C.1, p.C.2, p.Input]

instance {e a : Type} [DecidableEq e] [DecidableEq a] : DecidableEq (Except e a)
  | .ok x, .ok y =>
    if h : x = y then .isTrue (by rw [h]) else .isFalse (by intro hc; cases hc; exact h rfl)
  | .error x, .error y =>
    if h : x = y then .isTrue (by rw [h]) else .isFalse (by intro hc; cases hc; exact h rfl)
  | .ok _, .error _ => .isFalse (by intro hc; cases hc)
  | .error _, .ok _ => .isFalse (by intro hc; cases hc)

/-! ### Decoded ABI values and Go outcomes -/

/-- A decoded value out of `abi.Unpack` (`[]interface{}` in Go): a boolean, an
address (carried as its `.Hex()` rendering), or some other dynamic value. -/
inductive GoVal
  | boolVal (b : Bool)
  | addrVal (hex : String)
  | otherVal
deriving DecidableEq

/-- Go's unchecked type assertion `v, _ := x.(bool)`: the zero value `false`
when the dynamic type is not `bool`. -/
def asBoolD : GoVal → Bool
  | .boolVal b => b
  | _ => false

/-- Go's unchecked type assertion `v, _ := x.(common.Address)` followed by
`.Hex()`: the zero address when the dynamic type is not `Address`. -/
def asAddrD : GoVal → String
  | .addrVal a => a
  | _ => "0x0000000000000000000000000000000000000000"

/-- Result of running a Go function: a normal return, or a runtime panic. -/
inductive GoOutcome (α : Type)
  | ok (a : α)
  | panics (msg : String)
deriving DecidableEq

/-! ### VerifyProof (src/service/zkp.go lines 168-275) -/

/-- The observable chain interactions of `VerifyProof`: the read-only
simulation (`CallContract`) and the state-changing submission (`Transact`). -/
inductive ChainEvent
  | simulate
  | submit
deriving DecidableEq

/-- Oracles standing for the configuration and remote effects `VerifyProof`
consumes, in the order the Go code consults them.  Each `Except` value is the
result the external call would produce. -/
structure VerifyEnv where
  /-- `common.ZkpPrivateKey` (external configuration). -/
  zkpPrivateKey : String
  /-- `getEthClient()` result. -/
  client : Except String Unit
  /-- `getABIs()` result. -/
  abis : Except String Unit
  /-- `crypto.HexToECDSA` on the `0x`-stripped key. -/
  hexToECDSA : String → Except String Unit
  /-- `bind.NewKeyedTransactorWithChainID`. -/
  newTransactor : Except String Unit
  /-- `client.PendingNonceAt`. -/
  pendingNonce : Except String Nat
  /-- `client.SuggestGasPrice`. -/
  suggestGasPrice : Except String Nat
  /-- `zkpABI.Pack("verifyProof", ...)` on the payload. -/
  packVerify : ZkpPayload → Except String Unit
  /-- `client.CallContract` on the packed simulation message. -/
  callContract : ZkpPayload → Except String Unit
  /-- `zkpABI.Unpack("verifyProof", result)`. -/
  unpackVerify : Except String (List GoVal)
  /-- `NewBoundContract(...).Transact(auth, "verifyProof", ...)`, returning
  the transaction hash hex on success. -/
  transact : ZkpPayload → Except String String

/-- Strip a leading `0x` from the configured private key, as `VerifyProof`
does before `crypto.HexToECDSA`. -/
def dropHexMark (s : String) : String :=
  if s.startsWith "0x" then s.drop 2 else s

/-- `VerifyProof` from src/service/zkp.go: config check, client, ABIs, key
parse, transactor, nonce, gas price, pack; then the read-only simulation,
decode of its `(address, bool)` result, and — only when the simulation
decodes to a valid proof — the state-changing `Transact`.  The Go return
triple `(walletAddress, txHash, err)` is kept verbatim, and the list records
which chain interactions the run performed, in order. -/
def VerifyProof (env : VerifyEnv) (payload : ZkpPayload) :
    (String × String × Option String) × List ChainEvent :=
  if env.zkpPrivateKey = "" then
    (("", "", some "ZKP_PRIVATE_KEY not configured"), [])
  else
    match env.client with
    | .error e => (("", "", some ("failed to connect to ethereum client: " ++ e)), [])
    | .ok _ =>
    match env.abis with
    | .error e => (("", "", some ("failed to parse ABI: " ++ e)), [])
    | .ok _ =>
    match env.hexToECDSA (dropHexMark env.zkpPrivateKey) with
    | .error e => (("", "", some ("invalid private key: " ++ e)), [])
    | .ok _ =>
    match env.newTransactor with
    | .error e => (("", "", some ("failed to create transactor: " ++ e)), [])
    | .ok _ =>
    match env.pendingNonce with
    | .error e => (("", "", some ("failed to get nonce: " ++ e)), [])
    | .ok _ =>
    match env.suggestGasPrice with
    | .error e => (("", "", some ("failed to get gas price: " ++ e)), [])
    | .ok _ =>
    match env.packVerify payload with
    | .error e => (("", "", some ("failed to pack call data: " ++ e)), [])
    | .ok _ =>
    match env.callContract payload with
    | .error e =>
        (("", "", some ("contract call simulation failed: " ++ e)), [.simulate])
    | .ok _ =>
    match env.unpackVerify with
    | .error e => (("", "", some ("failed to unpack result: " ++ e)), [.simulate])
    | .ok outputs =>
    match outputs with
    | [o0, o1] =>
      match o0 with
      | .addrVal hashDeployer =>
        match o1 with
        | .boolVal isValid =>
          if !isValid then
            (("", "", some "proof verification failed"), [.simulate])
          else
            match env.transact payload with
            | .error e =>
                ((hashDeployer, "", some ("failed to send transaction: " ++ e)),
                 [.simulate, .submit])
            | .ok h => ((hashDeployer, h, none), [.simulate, .submit])
        | _ => (("", "", some "failed to parse isValid from result"), [.simulate])
      | _ => (("", "", some "failed to parse hashDeployer from result"), [.simulate])
    | _ => (("", "", some "unexpected output length from verifyProof"), [.simulate])

/-- The successful decode of the simulation's two-value result: a list that
is exactly an address followed by a boolean (the length check and the two
checked type assertions of the Go code). -/
def decodeTwo : List GoVal → Option (String × Bool)
  | [GoVal.addrVal a, GoVal.boolVal b] => some (a, b)
  | _ => none

/-! ### GetHashStatus and IsZkpValid (src/service/zkp.go lines 277-353) -/

/-- The Go `ZkpStatus` struct. -/
structure ZkpStatus where
  IsActive : Bool
  Deployer : String
  Exists : Bool
deriving DecidableEq

/-- Fixed-width big-endian bytes of a natural number: `fillBytesBE k n` is
the `k`-byte zero-left-padded encoding, the semantics of Go's
`big.Int.FillBytes` on a length-`k` buffer when the value fits. -/
def fillBytesBE : Nat → Nat → List Nat
  | 0, _ => []
  | k + 1, n => fillBytesBE k (n / 256) ++ [n % 256]

/-- The 32-byte buffer `GetHashStatus` fills. -/
def FillBytes32 (n : Nat) : List Nat := fillBytesBE 32 n

/-- Big-endian value of a byte list. -/
def beVal (bs : List Nat) : Nat := bs.foldl (fun a b => a * 256 + b) 0

/-- Oracles for the remote effects of `GetHashStatus`. -/
structure StatusEnv where
  /-- `getEthClient()` result. -/
  client : Except String Unit
  /-- `getABIs()` result. -/
  abis : Except String Unit
  /-- `zkpABI.Pack("getHashStatus", hash32)` on the filled 32-byte buffer. -/
  packStatus : List Nat → Except String Unit
  /-- `client.CallContract` on the status query. -/
  callContract : Except String Unit
  /-- `zkpABI.Unpack("getHashStatus", result)`. -/
  unpackStatus : Except String (List GoVal)

/-- `GetHashStatus` from src/service/zkp.go: parse the hash as base-10,
fill a 32-byte big-endian buffer (Go `FillBytes` **panics** when the absolute
value needs more than 32 bytes — there is no range check in the source), then
the read-only status call and its three-value decode with unchecked type
assertions. -/
def GetHashStatus (env : StatusEnv) (zkpHash : String) :
    GoOutcome (Except String ZkpStatus) :=
  match env.client with
  | .error e => .ok (.error ("failed to connect to ethereum client: " ++ e))
  | .ok _ =>
  match env.abis with
  | .error e => .ok (.error ("failed to parse ABI: " ++ e))
  | .ok _ =>
  match goSetString10 zkpHash.data with
  | none => .ok (.error "invalid zkpHash: failed to parse as decimal")
  | some v =>
    if 2 ^ 256 ≤ v.natAbs then .panics "math/big: buffer too small to fit value"
    else
      match env.packStatus (FillBytes32 v.natAbs) with
      | .error e => .ok (.error ("failed to pack call data: " ++ e))
      | .ok _ =>
      match env.callContract with
      | .error e => .ok (.error ("contract call failed: " ++ e))
      | .ok _ =>
      match env.unpackStatus with
      | .error e => .ok (.error ("failed to unpack result: " ++ e))
      | .ok outputs =>
        if outputs.length ≠ 3 then .ok (.error "unexpected output length from getHashStatus")
        else
          .ok (.ok { IsActive := asBoolD (outputs.getD 0 .otherVal)
                   , Deployer := asAddrD (outputs.getD 1 .otherVal)
                   , Exists := asBoolD (outputs.getD 2 .otherVal) })

/-- `IsZkpValid` from src/service/zkp.go: the empty hash is always valid;
otherwise query the status, deny on error, and require `Exists && IsActive`.
A panic inside `GetHashStatus` propagates. -/
def IsZkpValid (env : StatusEnv) (zkpHash : String) : GoOutcome Bool :=
  if zkpHash = "" then .ok true
  else
    match GetHashStatus env zkpHash with
    | .panics m => .panics m
    | .ok (.error _) => .ok false
    | .ok (.ok status) => .ok (status.Exists && status.IsActive)

/-! ### CheckClubMembership and IsClubMember (src/service/zkp.go lines 355-424) -/

/-- The Go `MembershipStatus` struct. -/
structure MembershipStatus where
  IsMember : Bool
  IsPermanent : Bool
  IsTemporary : Bool
  IsTokenBased : Bool
  IsCrossChain : Bool
deriving DecidableEq

/-- The fixed club name constant `AllowedClubName = "ai"`. -/
def AllowedClubName : String := "ai"

/-- Oracles for the remote effects of `CheckClubMembership`, as functions of
the queried wallet address and club name. -/
structure MemberEnv where
  /-- `getEthClient()` result. -/
  client : Except String Unit
  /-- `getABIs()` result. -/
  abis : Except String Unit
  /-- `memberABI.Pack("checkDetailedMembership", ...)`. -/
  packMembership : String → String → Except String Unit
  /-- `client.CallContract` on the membership query. -/
  callContract : String → String → Except String Unit
  /-- `memberABI.Unpack("checkDetailedMembership", result)`. -/
  unpackMembership : String → String → Except String (List GoVal)

/-- `CheckClubMembership` from src/service/zkp.go: client, ABIs, pack, call,
unpack, four-value length check, unchecked boolean assertions, and the
derived `IsMember` disjunction. -/
def CheckClubMembership (env : MemberEnv) (walletAddress clubName : String) :
    Except String MembershipStatus :=
  match env.client with
  | .error e => .error ("failed to connect to ethereum client: " ++ e)
  | .ok _ =>
  match env.abis with
  | .error e => .error ("failed to parse ABI: " ++ e)
  | .ok _ =>
  match env.packMembership walletAddress clubName with
  | .error e => .error ("failed to pack call data: " ++ e)
  | .ok _ =>
  match env.callContract walletAddress clubName with
  | .error e => .error ("contract call failed: " ++ e)
  | .ok _ =>
  match env.unpackMembership walletAddress clubName with
  | .error e => .error ("failed to unpack result: " ++ e)
  | .ok outputs =>
    if outputs.length ≠ 4 then .error "unexpected output length from checkDetailedMembership"
    else
      let isPermanent := asBoolD (outputs.getD 0 .otherVal)
      let isTemporary := asBoolD (outputs.getD 1 .otherVal)
      let isTokenBased := asBoolD (outputs.getD 2 .otherVal)
      let isCrossChain := asBoolD (outputs.getD 3 .otherVal)
      .ok { IsMember := isPermanent || isTemporary || isTokenBased || isCrossChain
          , IsPermanent := isPermanent
          , IsTemporary := isTemporary
          , IsTokenBased := isTokenBased
          , IsCrossChain := isCrossChain }

/-- `IsClubMember` from src/service/zkp.go: the empty wallet address always
passes; otherwise query the fixed club and deny on any error. -/
def IsClubMember (env : MemberEnv) (walletAddress : String) : Bool :=
  if walletAddress = "" then true
  else
    match CheckClubMembership env walletAddress AllowedClubName with
    | .error _ => false
    | .ok status => status.IsMember

/-! ### getABIs (src/service/zkp.go lines 100-128) -/

/-- Opaque handle for a parsed `abi.ABI` descriptor; `⟨0⟩` is the Go zero
value the package-level variables start with. -/
structure GoABI where
  handle : Nat
deriving DecidableEq

/-- The package-level state touched by `getABIs`: the two ABI globals and the
`sync.Once` completion flag. -/
structure AbiGlobals where
  zkpABI : GoABI
  membershipABI : GoABI
  abiOnceDone : Bool
deriving DecidableEq

/-- Process start: zero-valued globals, `sync.Once` not yet fired. -/
def initAbiGlobals : AbiGlobals := ⟨⟨0⟩, ⟨0⟩, false⟩

/-- `getABIs` from src/service/zkp.go, as a state transformer over the
package globals.  `p1` and `p2` stand for the results of `abi.JSON` on the
two constant ABI strings (the JSON parser is an external library).  Note the
source declares `var err error` **locally**: the closure passed to
`abiOnce.Do` assigns it on the first call only, so later calls return the
zero-valued globals with a nil error even when the first parse failed. -/
def getABIs (p1 p2 : Except String GoABI) (s : AbiGlobals) :
    (GoABI × GoABI × Option String) × AbiGlobals :=
  if s.abiOnceDone then ((s.zkpABI, s.membershipABI, none), s)
  else
    match p1 with
    | .error e =>
      let s1 : AbiGlobals := ⟨⟨0⟩, s.membershipABI, true⟩
      ((s1.zkpABI, s1.membershipABI, some e), s1)
    | .ok a1 =>
      match p2 with
      | .error e =>
        let s1 : AbiGlobals := ⟨a1, ⟨0⟩, true⟩
        ((s1.zkpABI, s1.membershipABI, some e), s1)
      | .ok a2 =>
        let s1 : AbiGlobals := ⟨a1, a2, true⟩
        ((s1.zkpABI, s1.membershipABI, none), s1)

/-! ### ZkpOAuth (src/controller/zkp.go) -/

/-- Modelled from the spec: the default enabled account status constant of
the external `common` package (not under src/); the spec's step 5 only needs
it as a distinguished value ("default enabled status"). -/
def UserStatusEnabled : Nat := 1

/-- Modelled from the spec: the common-user role constant of the external
`common` package (not under src/). -/
def RoleCommonUser : Nat := 1

/-- The fields of the external `model.User` the controller reads or writes. -/
structure User where
  Id : Nat
  Username : String
  DisplayName : String
  Role : Nat
  Status : Nat
  Group : String
  WalletAddress : String
  ZkpHash : String
deriving DecidableEq

/-- The login request body `{ zkpCode (required), affCode (optional) }`. -/
structure ZkpLoginRequest where
  zkpCode : String
  affCode : String
deriving DecidableEq

/-- `abbreviateAddress` from src/controller/zkp.go: addresses of more than 10
characters become first-6 + "..." + last-4.  (Go slices bytes; wallet
addresses are ASCII hex, so rune slicing coincides.) -/
def abbreviateAddress (address : String) : String :=
  if address.length ≤ 10 then address
  else
    ⟨address.data.take 6⟩ ++ "..." ++ ⟨address.data.drop (address.length - 4)⟩

/-- Oracles for the externals `ZkpOAuth` consumes: configuration, the JSON
binder, the chain environments, the account store and the session layer. -/
structure LoginEnv where
  /-- The chain oracles of `VerifyProof`; its `zkpPrivateKey` field is the
  same `common.ZkpPrivateKey` the controller checks first. -/
  verifyEnv : VerifyEnv
  /-- The chain oracles of `IsClubMember`. -/
  memberEnv : MemberEnv
  /-- `common.RegisterEnabled`. -/
  registerEnabled : Bool
  /-- `c.ShouldBindJSON` result. -/
  bindResult : Except String ZkpLoginRequest
  /-- `model.IsWalletAddressAlreadyTaken`. -/
  isWalletTaken : String → Bool
  /-- `user.FillUserByWalletAddress`: the loaded record or an error. -/
  fillUser : String → Except String User
  /-- `user.Update(false)`: `some` error message or `none`. -/
  updateUser : User → Option String
  /-- `user.Insert(inviterId)`: `some` error message or `none`. -/
  insertUser : User → Nat → Option String
  /-- `model.GetUserIdByAffCode` with its error discarded (`inviterId, _ =`),
  so an unresolvable code yields the zero value. -/
  userIdByAffCode : String → Nat
  /-- `session.Save()`: `some` error message or `none`. -/
  sessionSaveErr : Option String

/-- The persistence and session side effects a `ZkpOAuth` run performs, plus
the `common.SysLog` calls, in order. -/
inductive DbEffect
  | logged (msg : String)
  | update (u : User) (ok : Bool)
  | insert (u : User) (inviterId : Nat) (ok : Bool)
  | sessionSave (ok : Bool)
deriving DecidableEq

/-- The distinct exit points of `ZkpOAuth` (one constructor per `c.JSON`
return site of the source, in source order). -/
inductive LoginOutcome
  | notConfigured
  | invalidPayload
  | invalidZkpCode
  | proofInvalid
  | notClubMember
  | fillError (msg : String)
  | accountDeleted
  | registrationDisabled
  | insertError (msg : String)
  | accountDisabled
  | sessionError
  | success (u : User) (txHash : String)
deriving DecidableEq

/-- The tail of `ZkpOAuth` shared by both account branches: the post-
provisioning status check, then `setupZkpLogin`'s session save. -/
def finishLogin (env : LoginEnv) (user : User) (txHash : String)
    (effs : List DbEffect) : LoginOutcome × List DbEffect :=
  if user.Status ≠ UserStatusEnabled then (.accountDisabled, effs)
  else
    match env.sessionSaveErr with
    | some _ => (.sessionError, effs ++ [.sessionSave false])
    | none => (.success user txHash, effs ++ [.sessionSave true])

/-- `ZkpOAuth` from src/controller/zkp.go: config check, JSON bind,
`ParseZkpCode`, `VerifyProof`, `IsClubMember`, then the account branch —
update an existing record (update failure only logged) or insert a new one
(insert failure fatal) — followed by the status check and session setup. -/
def ZkpOAuth (env : LoginEnv) : LoginOutcome × List DbEffect :=
  if env.verifyEnv.zkpPrivateKey = "" then (.notConfigured, [])
  else
    match env.bindResult with
    | .error _ => (.invalidPayload, [])
    | .ok req =>
    match ParseZkpCode req.zkpCode with
    | .error _ => (.invalidZkpCode, [])
    | .ok payload =>
    match (VerifyProof env.verifyEnv payload).1 with
    | (_, _, some e) => (.proofInvalid, [.logged ("ZKP verification failed: " ++ e)])
    | (walletAddress, txHash, none) =>
    if !IsClubMember env.memberEnv walletAddress then (.notClubMember, [])
    else
      let zkpHash := bigIntString payload.Input
      if env.isWalletTaken walletAddress then
        match env.fillUser walletAddress with
        | .error e => (.fillError e, [])
        | .ok user1 =>
          if user1.Id = 0 then (.accountDeleted, [])
          else
            let user2 := { user1 with ZkpHash := zkpHash }
            match env.updateUser user2 with
            | some e =>
                finishLogin env user2 txHash
                  [.update user2 false, .logged ("Failed to update zkp hash: " ++ e)]
            | none => finishLogin env user2 txHash [.update user2 true]
      else
        if !env.registerEnabled then (.registrationDisabled, [])
        else
          let user2 : User :=
            { Id := 0
            , Username := abbreviateAddress walletAddress
            , DisplayName := abbreviateAddress walletAddress
            , Role := RoleCommonUser
            , Status := UserStatusEnabled
            , Group := "vip"
            , WalletAddress := walletAddress
            , ZkpHash := zkpHash }
          let inviterId := if req.affCode ≠ "" then env.userIdByAffCode req.affCode else 0
          match env.insertUser user2 inviterId with
          | some e => (.insertError e, [.insert user2 inviterId false])
          | none => finishLogin env user2 txHash [.insert user2 inviterId true]

/-- The shape of the JSON body each exit point emits. -/
structure HttpResponse where
  status : Nat
  success : Bool
  message : String
deriving DecidableEq

/-- The literal `(HTTP status, success, message)` each `c.JSON` call of the
source attaches to its exit point. -/
def responseOf : LoginOutcome → HttpResponse
  | .notConfigured => ⟨200, false, "ZKP authentication is not configured"⟩
  | .invalidPayload => ⟨400, false, "INVALID_PAYLOAD"⟩
  | .invalidZkpCode => ⟨400, false, "INVALID_ZKP_CODE"⟩
  | .proofInvalid => ⟨401, false, "PROOF_INVALID"⟩
  | .notClubMember => ⟨403, false, "NOT_CLUB_MEMBER"⟩
  | .fillError e => ⟨200, false, e⟩
  | .accountDeleted => ⟨200, false, "用户已注销"⟩
  | .registrationDisabled => ⟨200, false, "管理员关闭了新用户注册"⟩
  | .insertError e => ⟨200, false, e⟩
  | .accountDisabled => ⟨200, false, "用户已被封禁"⟩
  | .sessionError => ⟨200, false, "无法保存会话信息，请重试"⟩
  | .success _ _ => ⟨200, true, ""⟩

/-- The denial reason-code set named by the spec. -/
def reasonCodes : List String :=
  ["INVALID_PAYLOAD", "INVALID_ZKP_CODE", "PROOF_INVALID", "NOT_CLUB_MEMBER",
   "FEATURE_DISABLED", "REGISTRATION_DISABLED", "ACCOUNT_DELETED",
   "ACCOUNT_DISABLED", "PERSIST_ERROR", "SESSION_ERROR"]

/-- Modelled from the spec: a field that is "an arbitrary-precision
non-negative integer" written "in hexadecimal with a 0x prefix or otherwise
in decimal" — the claim's characterization of parsable fields, used only to
state the original claim for refutation. -/
def specNonNegDecOrHexField (cs : List Char) : Bool :=
  match cs with
  | '0' :: 'x' :: rest => !rest.isEmpty && rest.all (fun c => (digitVal c).isSome)
  | _ => !cs.isEmpty && cs.all (fun c => decide ('0' ≤ c ∧ c ≤ '9'))

/-! ### Concrete environments used by the witnesses -/

/-- A proof payload parsed from `"1,2,3,4,5,6,7,8,9"`. -/
def payload0 : ZkpPayload := { A := (1, 2), B := ((3, 4), (5, 6)), C := (7, 8), Input := 9 }

/-- A verify environment where every external call succeeds and the
simulation decodes to a valid proof for a fixed address. -/
def verifyEnvOk : VerifyEnv :=
  { zkpPrivateKey := "0xabc"
  , client := .ok ()
  , abis := .ok ()
  , hexToECDSA := fun _ => .ok ()
  , newTransactor := .ok ()
  , pendingNonce := .ok 7
  , suggestGasPrice := .ok 3
  , packVerify := fun _ => .ok ()
  , callContract := fun _ => .ok ()
  , unpackVerify := .ok [.addrVal "0xAAAAAAAAAAAAAAAAAAAAAAAAAAAAAAAAAAAA123A", .boolVal true]
  , transact := fun _ => .ok "0xFEED" }

/-- The same environment with the service signing key unset. -/
def verifyEnvNoKey : VerifyEnv := { verifyEnvOk with zkpPrivateKey := "" }

/-- A status environment whose remote call fails. -/
def statusEnvErr : StatusEnv :=
  { client := .ok ()
  , abis := .ok ()
  , packStatus := fun _ => .ok ()
  , callContract := .error "boom"
  , unpackStatus := .ok [] }

/-- A membership environment reporting a permanent member. -/
def memberEnvYes : MemberEnv :=
  { client := .ok ()
  , abis := .ok ()
  , packMembership := fun _ _ => .ok ()
  , callContract := fun _ _ => .ok ()
  , unpackMembership := fun _ _ =>
      .ok [.boolVal true, .boolVal false, .boolVal false, .boolVal false] }

/-- A membership environment whose remote call fails. -/
def memberEnvErr : MemberEnv := { memberEnvYes with callContract := fun _ _ => .error "down" }

/-- A login environment for a first-time wallet where every step succeeds. -/
def loginEnvHappy : LoginEnv :=
  { verifyEnv := verifyEnvOk
  , memberEnv := memberEnvYes
  , registerEnabled := true
  , bindResult := .ok { zkpCode := "1,2,3,4,5,6,7,8,9", affCode := "" }
  , isWalletTaken := fun _ => false
  , fillUser := fun _ => .error "record not found"
  , updateUser := fun _ => none
  , insertUser := fun _ _ => none
  , userIdByAffCode := fun _ => 0
  , sessionSaveErr := none }

/-- The happy login environment with the signing key unset. -/
def loginEnvNoKey : LoginEnv := { loginEnvHappy with verifyEnv := verifyEnvNoKey }

/-- The happy login environment with a failing account insert. -/
def loginEnvInsertFail : LoginEnv :=
  { loginEnvHappy with insertUser := fun _ _ => some "db write failed" }

/-- The account the happy login environment constructs on its not-found
branch. -/
def insertedUser0 : User :=
  { Id := 0
  , Username := abbreviateAddress "0xAAAAAAAAAAAAAAAAAAAAAAAAAAAAAAAAAAAA123A"
  , DisplayName := abbreviateAddress "0xAAAAAAAAAAAAAAAAAAAAAAAAAAAAAAAAAAAA123A"
  , Role := RoleCommonUser
  , Status := UserStatusEnabled
  , Group := "vip"
  , WalletAddress := "0xAAAAAAAAAAAAAAAAAAAAAAAAAAAAAAAAAAAA123A"
  , ZkpHash := bigIntString 9 }

end Zkp

namespace Zkp

/-! ### Helper lemmas -/

lemma checkClubMembership_ok_isMember (env : MemberEnv) (w c : String) (s : MembershipStatus)
    (h : CheckClubMembership env w c = .ok s) :
    s.IsMember = (s.IsPermanent || s.IsTemporary || s.IsTokenBased || s.IsCrossChain) := by
  unfold CheckClubMembership at h
  cases hc : env.client with
  | error e => rw [hc] at h; cases h
  | ok u =>
  rw [hc] at h
  cases ha : env.abis with
  | error e => rw [ha] at h; cases h
  | ok u2 =>
  rw [ha] at h
  cases hp : env.packMembership w c with
  | error e => rw [hp] at h; cases h
  | ok u3 =>
  rw [hp] at h
  cases hcall : env.callContract w c with
  | error e => rw [hcall] at h; cases h
  | ok u4 =>
  rw [hcall] at h
  cases hu : env.unpackMembership w c with
  | error e => rw [hu] at h; cases h
  | ok outputs =>
  rw [hu] at h
  by_cases hl : outputs.length ≠ 4
  · simp only [if_pos hl] at h; cases h
  · simp only [if_neg hl] at h
    injection h with h
    subst h
    rfl

lemma fillBytesBE_length (k n : Nat) : (fillBytesBE k n).length = k := by
  induction k generalizing n with
  | zero => rfl
  | succ k ih => simp [fillBytesBE, ih]

lemma beVal_fillBytesBE (k n : Nat) (h : n < 256 ^ k) : beVal (fillBytesBE k n) = n := by
  induction k generalizing n with
  | zero =>
    simp only [Nat.pow_zero, Nat.lt_one_iff] at h
    subst h
    rfl
  | succ k ih =>
    have hdiv : n / 256 < 256 ^ k := by
      rw [Nat.div_lt_iff_lt_mul (by norm_num)]
      calc n < 256 ^ (k + 1) := h
        _ = 256 ^ k * 256 := by ring
    show beVal (fillBytesBE k (n / 256) ++ [n % 256]) = n
    unfold beVal
    rw [List.foldl_append]
    have := ih (n / 256) hdiv
    unfold beVal at this
    rw [this]
    show n / 256 * 256 + n % 256 = n
    omega

lemma parseValues_ok_map (parts : List (List Char)) :
    ∀ i vs, parseValues i parts = .ok vs →
      vs = parts.map (fun p => (goSetString0 p).getD 0) ∧
        ∀ p ∈ parts, goSetString0 p ≠ none := by
  induction parts with
  | nil =>
    intro i vs h
    injection h with h
    subst h
    simp
  | cons p ps ih =>
    intro i vs h
    unfold parseValues at h
    cases hp : goSetString0 p with
    | none => rw [hp] at h; cases h
    | some v =>
      rw [hp] at h
      cases hr : parseValues (i + 1) ps with
      | error e => rw [hr] at h; cases h
      | ok vs2 =>
        rw [hr] at h
        injection h with h
        subst h
        obtain ⟨h1, h2⟩ := ih (i + 1) vs2 hr
        refine ⟨by simp [h1, hp], ?_⟩
        intro q hq
        rcases List.mem_cons.mp hq with hq | hq
        · subst hq; simp [hp]
        · exact h2 q hq

lemma parseValues_ok_of_all (parts : List (List Char)) :
    ∀ i, (∀ p ∈ parts, goSetString0 p ≠ none) →
      parseValues i parts = .ok (parts.map fun p => (goSetString0 p).getD 0) := by
  induction parts with
  | nil => intro i _; rfl
  | cons p ps ih =>
    intro i h
    have hp : goSetString0 p ≠ none := h p (List.mem_cons_self p ps)
    unfold parseValues
    cases hpv : goSetString0 p with
    | none => exact absurd hpv hp
    | some v =>
      rw [ih (i + 1) (fun q hq => h q (List.mem_cons_of_mem _ hq))]
      simp [hpv]

lemma parseValues_error_first (parts : List (List Char)) :
    ∀ i k, k < parts.length →
      goSetString0 (parts.getD k []) = none →
      (∀ j, j < k → goSetString0 (parts.getD j []) ≠ none) →
      parseValues i parts =
        .error ("invalid zkpCode: failed to parse value at index " ++ natDec (i + k)) := by
  induction parts with
  | nil => intro i k hk _ _; simp at hk
  | cons p ps ih =>
    intro i k hk hnone hprev
    unfold parseValues
    cases k with
    | zero =>
      rw [List.getD_cons_zero] at hnone
      rw [hnone]
      rfl
    | succ k2 =>
      have hp : goSetString0 p ≠ none := by
        have := hprev 0 (Nat.succ_pos k2)
        rwa [List.getD_cons_zero] at this
      cases hpv : goSetString0 p with
      | none => exact absurd hpv hp
      | some v =>
        have hrec := ih (i + 1) k2 (by simpa using hk)
          (by rwa [List.getD_cons_succ] at hnone)
          (fun j hj => by
            have := hprev (j + 1) (by omega)
            rwa [List.getD_cons_succ] at this)
        rw [hrec]
        have harith : i + 1 + k2 = i + (k2 + 1) := by omega
        rw [harith]

lemma list_eq_getD9 (vs : List Int) (h : vs.length = 9) :
    vs = [vs.getD 0 0, vs.getD 1 0, vs.getD 2 0, vs.getD 3 0, vs.getD 4 0,
          vs.getD 5 0, vs.getD 6 0, vs.getD 7 0, vs.getD 8 0] := by
  rcases vs with _ | ⟨a0, _ | ⟨a1, _ | ⟨a2, _ | ⟨a3, _ | ⟨a4, _ | ⟨a5, _ | ⟨a6, _ | ⟨a7, _ | ⟨a8, tail⟩⟩⟩⟩⟩⟩⟩⟩⟩ <;>
    simp_all

lemma finishLogin_cases (env : LoginEnv) (user : User) (t : String) (effs : List DbEffect) :
    (user.Status ≠ UserStatusEnabled ∧ finishLogin env user t effs = (.accountDisabled, effs))
    ∨ finishLogin env user t effs = (.sessionError, effs ++ [.sessionSave false])
    ∨ finishLogin env user t effs = (.success user t, effs ++ [.sessionSave true]) := by
  unfold finishLogin
  by_cases hs : user.Status ≠ UserStatusEnabled
  · rw [if_pos hs]; exact Or.inl ⟨hs, rfl⟩
  · rw [if_neg hs]
    cases env.sessionSaveErr with
    | some e => exact Or.inr (Or.inl rfl)
    | none => exact Or.inr (Or.inr rfl)

lemma zkpOAuth_shape (env : LoginEnv) :
    (∃ o, ZkpOAuth env = (o, []) ∧
        (o = .notConfigured ∨ o = .invalidPayload ∨ o = .invalidZkpCode ∨ o = .notClubMember ∨
          (∃ e, o = .fillError e) ∨ o = .accountDeleted ∨ o = .registrationDisabled))
    ∨ (∃ m, ZkpOAuth env = (.proofInvalid, [.logged m]))
    ∨ (∃ user t m, ZkpOAuth env =
          finishLogin env user t [.update user false, .logged ("Failed to update zkp hash: " ++ m)])
    ∨ (∃ user t, ZkpOAuth env = finishLogin env user t [.update user true])
    ∨ (∃ user inviter t req payload, env.bindResult = .ok req ∧
          ParseZkpCode req.zkpCode = .ok payload ∧
          user.Status = UserStatusEnabled ∧ user.Role = RoleCommonUser ∧ user.Group = "vip" ∧
          user.Username = abbreviateAddress user.WalletAddress ∧
          user.DisplayName = user.Username ∧ user.ZkpHash = bigIntString payload.Input ∧
          ((∃ e, ZkpOAuth env = (.insertError e, [.insert user inviter false])) ∨
            ZkpOAuth env = finishLogin env user t [.insert user inviter true])) := by
  by_cases hk : env.verifyEnv.zkpPrivateKey = ""
  · exact Or.inl ⟨_, by simp [ZkpOAuth, hk], Or.inl rfl⟩
  cases hb : env.bindResult with
  | error e =>
    exact Or.inl ⟨_, by simp [ZkpOAuth, hk, hb], Or.inr (Or.inl rfl)⟩
  | ok req =>
  cases hp : ParseZkpCode req.zkpCode with
  | error e =>
    exact Or.inl ⟨_, by simp [ZkpOAuth, hk, hb, hp], Or.inr (Or.inr (Or.inl rfl))⟩
  | ok payload =>
  rcases hv : (VerifyProof env.verifyEnv payload).1 with ⟨w, t, err⟩
  cases err with
  | some m =>
    exact Or.inr (Or.inl ⟨"ZKP verification failed: " ++ m,
      by simp [ZkpOAuth, hk, hb, hp, hv]⟩)
  | none =>
  cases hm : IsClubMember env.memberEnv w with
  | false =>
    exact Or.inl ⟨_, by simp [ZkpOAuth, hk, hb, hp, hv, hm],
      Or.inr (Or.inr (Or.inr (Or.inl rfl)))⟩
  | true =>
  cases hw : env.isWalletTaken w with
  | true =>
    cases hf : env.fillUser w with
    | error e =>
      exact Or.inl ⟨_, by simp [ZkpOAuth, hk, hb, hp, hv, hm, hw, hf],
        Or.inr (Or.inr (Or.inr (Or.inr (Or.inl ⟨e, rfl⟩))))⟩
    | ok user1 =>
    by_cases hid : user1.Id = 0
    · exact Or.inl ⟨_, by simp [ZkpOAuth, hk, hb, hp, hv, hm, hw, hf, hid],
        Or.inr (Or.inr (Or.inr (Or.inr (Or.inr (Or.inl rfl)))))⟩
    cases hu : env.updateUser { user1 with ZkpHash := bigIntString payload.Input } with
    | some m =>
      refine Or.inr (Or.inr (Or.inl
        ⟨{ user1 with ZkpHash := bigIntString payload.Input }, t, m, ?_⟩))
      simp [ZkpOAuth, hk, hb, hp, hv, hm, hw, hf, hid, hu]
    | none =>
      refine Or.inr (Or.inr (Or.inr (Or.inl
        ⟨{ user1 with ZkpHash := bigIntString payload.Input }, t, ?_⟩)))
      simp [ZkpOAuth, hk, hb, hp, hv, hm, hw, hf, hid, hu]
  | false =>
  cases hr : env.registerEnabled with
  | false =>
    exact Or.inl ⟨_, by simp [ZkpOAuth, hk, hb, hp, hv, hm, hw, hr],
      Or.inr (Or.inr (Or.inr (Or.inr (Or.inr (Or.inr rfl)))))⟩
  | true =>
  refine Or.inr (Or.inr (Or.inr (Or.inr
    ⟨{ Id := 0
     , Username := abbreviateAddress w
     , DisplayName := abbreviateAddress w
     , Role := RoleCommonUser
     , Status := UserStatusEnabled
     , Group := "vip"
     , WalletAddress := w
     , ZkpHash := bigIntString payload.Input },
     (if req.affCode = "" then 0 else env.userIdByAffCode req.affCode),
     t, req, payload, rfl, hp, rfl, rfl, rfl, rfl, rfl, rfl, ?_⟩)))
  cases hi : env.insertUser
      { Id := 0
      , Username := abbreviateAddress w
      , DisplayName := abbreviateAddress w
      , Role := RoleCommonUser
      , Status := UserStatusEnabled
      , Group := "vip"
      , WalletAddress := w
      , ZkpHash := bigIntString payload.Input }
      (if req.affCode = "" then 0 else env.userIdByAffCode req.affCode) with
  | some e =>
    refine Or.inl ⟨e, ?_⟩
    simp [ZkpOAuth, hk, hb, hp, hv, hm, hw, hr, hi]
  | none =>
    refine Or.inr ?_
    simp [ZkpOAuth, hk, hb, hp, hv, hm, hw, hr, hi]

end Zkp

namespace Zkp

/-! ### Claim theorems -/

/-- C1: for every parsed proof payload, `VerifyProof` runs the read-only
simulation strictly before any transaction is submitted (the event trace is
always a prefix of `[simulate, submit]`); if the simulation call fails, its
two-value result fails to decode, or the decoded validity boolean is false,
it returns an error and never consults the transaction oracle; and on
success the returned wallet address is the one decoded from the simulation
result while the transaction hash comes from the subsequently submitted
transaction. -/
theorem verifyProof_two_phase (env : VerifyEnv) (payload : ZkpPayload) :
    ((VerifyProof env payload).2 = [] ∨ (VerifyProof env payload).2 = [ChainEvent.simulate] ∨
      (VerifyProof env payload).2 = [ChainEvent.simulate, ChainEvent.submit])
    ∧ ((¬ (env.callContract payload = .ok () ∧
          ∃ a outs, env.unpackVerify = .ok outs ∧ decodeTwo outs = some (a, true))) →
        (VerifyProof env payload).1.2.2 ≠ none ∧
          ChainEvent.submit ∉ (VerifyProof env payload).2)
    ∧ ((VerifyProof env payload).1.2.2 = none →
        ∃ a h outs, env.unpackVerify = .ok outs ∧ decodeTwo outs = some (a, true) ∧
          env.transact payload = .ok h ∧
          (VerifyProof env payload).1 = (a, h, none) ∧
          (VerifyProof env payload).2 = [ChainEvent.simulate, ChainEvent.submit]) := by
  obtain ⟨key, client, abis, hex, trans, nonce, gas, pack, call, unpack, txo⟩ := env
  by_cases hk : key = ""
  · simp [VerifyProof, hk]
  all_goals cases client with
    | error e => simp [VerifyProof, hk]
    | ok u =>
  cases u
  cases abis with
  | error e => simp [VerifyProof, hk]
  | ok u =>
  cases u
  cases hhex : hex (dropHexMark key) with
  | error e => simp [VerifyProof, hk, hhex]
  | ok u =>
  cases u
  cases trans with
  | error e => simp [VerifyProof, hk, hhex]
  | ok u =>
  cases u
  cases nonce with
  | error e => simp [VerifyProof, hk, hhex]
  | ok n =>
  cases gas with
  | error e => simp [VerifyProof, hk, hhex]
  | ok g =>
  cases hpack : pack payload with
  | error e => simp [VerifyProof, hk, hhex, hpack]
  | ok u =>
  cases u
  cases hcall : call payload with
  | error e => simp [VerifyProof, hk, hhex, hpack, hcall]
  | ok u =>
  cases u
  cases unpack with
  | error e => simp [VerifyProof, hk, hhex, hpack, hcall]
  | ok outs =>
  match outs with
  | [] => simp [VerifyProof, hk, hhex, hpack, hcall, decodeTwo]
  | [o0] => simp [VerifyProof, hk, hhex, hpack, hcall, decodeTwo]
  | o0 :: o1 :: o2 :: rest => simp [VerifyProof, hk, hhex, hpack, hcall, decodeTwo]
  | [o0, o1] =>
    cases o0 with
    | boolVal b => simp [VerifyProof, hk, hhex, hpack, hcall, decodeTwo]
    | otherVal => simp [VerifyProof, hk, hhex, hpack, hcall, decodeTwo]
    | addrVal a =>
      cases o1 with
      | addrVal a2 => simp [VerifyProof, hk, hhex, hpack, hcall, decodeTwo]
      | otherVal => simp [VerifyProof, hk, hhex, hpack, hcall, decodeTwo]
      | boolVal b =>
        cases b with
        | false => simp [VerifyProof, hk, hhex, hpack, hcall, decodeTwo]
        | true =>
          cases htx : txo payload with
          | error e => simp [VerifyProof, hk, hhex, hpack, hcall, htx, decodeTwo]
          | ok h => simp [VerifyProof, hk, hhex, hpack, hcall, htx, decodeTwo]

/-- Witness for C1: a fully successful run returns the simulated address and
the submitted transaction hash, after both phases in order. -/
theorem verifyProof_two_phase_witness :
    (VerifyProof verifyEnvOk payload0).1.2.2 = none ∧
    ∃ a h outs, verifyEnvOk.unpackVerify = .ok outs ∧ decodeTwo outs = some (a, true) ∧
      verifyEnvOk.transact payload0 = .ok h ∧
      (VerifyProof verifyEnvOk payload0).1 = (a, h, none) ∧
      (VerifyProof verifyEnvOk payload0).2 = [ChainEvent.simulate, ChainEvent.submit] :=
  ⟨by decide, (verifyProof_two_phase verifyEnvOk payload0).2.2 (by decide)⟩

/-- C2: `IsZkpValid` on the empty hash identifier is always true; on a
non-empty identifier it is true exactly when the status query returned a
record that exists and is active; and whenever the query returns an error it
is false (fail-closed). -/
theorem isZkpValid_policy (env : StatusEnv) :
    IsZkpValid env "" = .ok true
    ∧ (∀ zh, zh ≠ "" →
        (IsZkpValid env zh = .ok true ↔
          ∃ s, GetHashStatus env zh = .ok (.ok s) ∧ s.Exists = true ∧ s.IsActive = true))
    ∧ (∀ zh e, zh ≠ "" → GetHashStatus env zh = .ok (.error e) →
        IsZkpValid env zh = .ok false) := by
  refine ⟨rfl, ?_, ?_⟩
  · intro zh hzh
    unfold IsZkpValid
    rw [if_neg hzh]
    cases hq : GetHashStatus env zh with
    | panics m => simp
    | ok r =>
      cases r with
      | error e => simp
      | ok s =>
        show GoOutcome.ok (s.Exists && s.IsActive) = GoOutcome.ok true ↔ _
        constructor
        · intro hm
          injection hm with hm
          rcases Bool.and_eq_true _ _ |>.mp hm with ⟨h1, h2⟩
          exact ⟨s, rfl, h1, h2⟩
        · rintro ⟨s2, hs2, he, ha⟩
          injection hs2 with hs2
          injection hs2 with hs2
          subst hs2
          rw [he, ha]
          rfl
  · intro zh e hzh hq
    unfold IsZkpValid
    rw [if_neg hzh, hq]

/-- Witness for C2: the empty identifier passes, and a failing remote call
makes a non-empty identifier invalid. -/
theorem isZkpValid_policy_witness :
    IsZkpValid statusEnvErr "" = .ok true ∧ IsZkpValid statusEnvErr "5" = .ok false :=
  ⟨(isZkpValid_policy statusEnvErr).1,
   (isZkpValid_policy statusEnvErr).2.2 "5" "contract call failed: boom"
     (by decide) (by decide)⟩

/-- C3: `IsClubMember` on the empty wallet address is always true; on a
non-empty address it is true exactly when the membership query succeeded
with at least one of the four tier flags set; it is false on any query
error; and every `MembershipStatus` the query produces has `IsMember` equal
to the disjunction of the four tier flags. -/
theorem isClubMember_policy (env : MemberEnv) :
    IsClubMember env "" = true
    ∧ (∀ w, w ≠ "" →
        (IsClubMember env w = true ↔
          ∃ s, CheckClubMembership env w AllowedClubName = .ok s ∧
            (s.IsPermanent || s.IsTemporary || s.IsTokenBased || s.IsCrossChain) = true))
    ∧ (∀ w e, w ≠ "" → CheckClubMembership env w AllowedClubName = .error e →
        IsClubMember env w = false)
    ∧ (∀ w c s, CheckClubMembership env w c = .ok s →
        s.IsMember = (s.IsPermanent || s.IsTemporary || s.IsTokenBased || s.IsCrossChain)) := by
  refine ⟨rfl, ?_, ?_, ?_⟩
  · intro w hw
    unfold IsClubMember
    rw [if_neg hw]
    cases hq : CheckClubMembership env w AllowedClubName with
    | error e => simp [hq]
    | ok s =>
      have := checkClubMembership_ok_isMember env w AllowedClubName s hq
      show s.IsMember = true ↔ _
      constructor
      · intro hm; exact ⟨s, rfl, this ▸ hm⟩
      · rintro ⟨s2, hs2, hor⟩
        injection hs2 with hs2
        subst hs2
        rw [this, hor]
  · intro w e hw hq
    unfold IsClubMember
    rw [if_neg hw, hq]
  · exact fun w c s h => checkClubMembership_ok_isMember env w c s h

/-- Witness for C3: the empty address passes, a permanent member passes, and
a failing query denies. -/
theorem isClubMember_policy_witness :
    IsClubMember memberEnvYes "" = true ∧ IsClubMember memberEnvYes "0xA" = true ∧
    IsClubMember memberEnvErr "0xA" = false :=
  ⟨(isClubMember_policy memberEnvYes).1,
   ((isClubMember_policy memberEnvYes).2.1 "0xA" (by decide)).mpr
     ⟨⟨true, true, false, false, false⟩, by decide, by decide⟩,
   (isClubMember_policy memberEnvErr).2.2.1 "0xA" "contract call failed: down"
     (by decide) (by decide)⟩

end Zkp

namespace Zkp

/-- C4: whenever `ParseZkpCode` succeeds, the cleaned text split into exactly
9 fields that all parsed, and the payload read back in the order
`A[0], A[1], B[0][0], B[0][1], B[1][0], B[1][1], C[0], C[1], Input[0]` is
exactly the list of the 9 trimmed fields' values in their original order
(positional assembly, no reordering; `ParseZkpCode` is a pure function, so
determinism is immediate). -/
theorem parseZkpCode_positional (code : String) (p : ZkpPayload)
    (h : ParseZkpCode code = .ok p) :
    (cleanedParts code).length = 9
    ∧ (∀ part ∈ cleanedParts code, goSetString0 part ≠ none)
    ∧ readBack p = (cleanedParts code).map (fun part => (goSetString0 part).getD 0) := by
  unfold ParseZkpCode at h
  by_cases hl : (cleanedParts code).length ≠ 9
  · rw [if_pos hl] at h; cases h
  · rw [if_neg hl] at h
    push_neg at hl
    cases hpv : parseValues 0 (cleanedParts code) with
    | error e => rw [hpv] at h; cases h
    | ok values =>
      rw [hpv] at h
      injection h with h
      obtain ⟨hmap, hall⟩ := parseValues_ok_map (cleanedParts code) 0 values hpv
      refine ⟨hl, hall, ?_⟩
      have hlen : values.length = 9 := by rw [hmap, List.length_map, hl]
      have h9 := list_eq_getD9 values hlen
      subst h
      unfold readBack
      rw [← hmap, ← h9]

/-- Witness for C4: the 9-field input `"1,2,3,4,5,6,7,8,9"` parses and reads
back in order. -/
theorem parseZkpCode_positional_witness :
    ParseZkpCode "1,2,3,4,5,6,7,8,9" = .ok payload0
    ∧ readBack payload0 =
      (cleanedParts "1,2,3,4,5,6,7,8,9").map (fun part => (goSetString0 part).getD 0) :=
  have h : ParseZkpCode "1,2,3,4,5,6,7,8,9" = .ok payload0 := by decide
  ⟨h, (parseZkpCode_positional "1,2,3,4,5,6,7,8,9" payload0 h).2.2⟩

/-- C5 counterexample: the field `"-1"` is not a non-negative integer in
`0x`-hexadecimal or decimal form, yet `ParseZkpCode` accepts it (Go
`big.Int.SetString` with base 0 also admits signs, binary/octal prefixes and
underscores), so the claim's "fails exactly when" characterization is false
at this input. -/
theorem parseZkpCode_spec_counterexample :
    ParseZkpCode "-1,2,3,4,5,6,7,8,9" =
      .ok { A := (-1, 2), B := ((3, 4), (5, 6)), C := (7, 8), Input := 9 }
    ∧ specNonNegDecOrHexField "-1".data = false :=
  ⟨by decide, by decide⟩

/-- C5 (amended): `ParseZkpCode` is total (the embedding returns a value for
every input, so it never panics) and fails exactly when the cleaned text
does not split into 9 comma-separated fields — with the error naming the
field-count expectation — or some trimmed field is not an integer in Go
base-0 syntax (optional sign; `0x`/`0b`/`0o` prefixes, leading-0 octal,
underscore separators) — with the error naming the first such index. -/
theorem parseZkpCode_error_characterization (code : String) :
    ((∃ p, ParseZkpCode code = .ok p) ↔
      ((cleanedParts code).length = 9 ∧ ∀ part ∈ cleanedParts code, goSetString0 part ≠ none))
    ∧ ((cleanedParts code).length ≠ 9 →
        ParseZkpCode code = .error "invalid zkpCode: expected 9 comma-separated values")
    ∧ (∀ i, (cleanedParts code).length = 9 → i < 9 →
        goSetString0 ((cleanedParts code).getD i []) = none →
        (∀ j, j < i → goSetString0 ((cleanedParts code).getD j []) ≠ none) →
        ParseZkpCode code =
          .error ("invalid zkpCode: failed to parse value at index " ++ natDec i)) := by
  refine ⟨⟨?_, ?_⟩, ?_, ?_⟩
  · rintro ⟨p, hp⟩
    unfold ParseZkpCode at hp
    by_cases hl : (cleanedParts code).length ≠ 9
    · rw [if_pos hl] at hp; cases hp
    · push_neg at hl
      refine ⟨hl, ?_⟩
      rw [if_neg (by rw [hl]; exact fun hc => hc rfl)] at hp
      cases hpv : parseValues 0 (cleanedParts code) with
      | error e => rw [hpv] at hp; cases hp
      | ok values => exact (parseValues_ok_map (cleanedParts code) 0 values hpv).2
  · rintro ⟨hl, hall⟩
    unfold ParseZkpCode
    rw [if_neg (by rw [hl]; exact fun hc => hc rfl)]
    rw [parseValues_ok_of_all (cleanedParts code) 0 hall]
    exact ⟨_, rfl⟩
  · intro hl
    unfold ParseZkpCode
    rw [if_pos hl]
  · intro i hl hi hnone hprev
    unfold ParseZkpCode
    rw [if_neg (by rw [hl]; exact fun hc => hc rfl)]
    have := parseValues_error_first (cleanedParts code) 0 i (by omega) hnone hprev
    rw [this]
    have h0 : (0 : Nat) + i = i := Nat.zero_add i
    rw [h0]

/-- Witness for C5: a 3-field input fails with the count error; a bad ninth
field fails with the index-8 error. -/
theorem parseZkpCode_error_characterization_witness :
    ParseZkpCode "1,2,3" = .error "invalid zkpCode: expected 9 comma-separated values"
    ∧ ParseZkpCode "1,2,3,4,5,6,7,8,z" =
      .error ("invalid zkpCode: failed to parse value at index " ++ natDec 8) :=
  ⟨(parseZkpCode_error_characterization "1,2,3").2.1 (by decide),
   (parseZkpCode_error_characterization "1,2,3,4,5,6,7,8,z").2.2 8 (by decide)
     (by decide) (by decide) (by decide)⟩

/-- C6: the `sync.Once` body runs at most once — once the flag is set every
later `getABIs` call returns the stored globals unchanged — but the claim's
"same cached error" part fails on the code: because `err` is a local
variable, a first call whose ABI parse fails returns that error, while the
second call returns a nil error (with zero-valued descriptors).  This is the
classic Go once-with-local-err slip; the sibling `getEthClient` caches its
error in a package-level variable. -/
theorem getABIs_error_not_cached (p1 p2 : Except String GoABI) (e : String)
    (h : p1 = .error e) :
    (∀ s : AbiGlobals, s.abiOnceDone = true →
        getABIs p1 p2 s = ((s.zkpABI, s.membershipABI, none), s))
    ∧ (getABIs p1 p2 initAbiGlobals).1.2.2 = some e
    ∧ (getABIs p1 p2 (getABIs p1 p2 initAbiGlobals).2).1.2.2 = none := by
  subst h
  refine ⟨?_, rfl, rfl⟩
  intro s hs
  unfold getABIs
  rw [if_pos hs]

/-- Witness for C6: with a failing first parse, the first call reports the
error and the second call reports none. -/
theorem getABIs_error_not_cached_witness :
    (getABIs (.error "bad abi") (.ok ⟨1⟩) initAbiGlobals).1.2.2 = some "bad abi"
    ∧ (getABIs (.error "bad abi") (.ok ⟨1⟩)
        (getABIs (.error "bad abi") (.ok ⟨1⟩) initAbiGlobals).2).1.2.2 = none :=
  ⟨(getABIs_error_not_cached (.error "bad abi") (.ok ⟨1⟩) "bad abi" rfl).2.1,
   (getABIs_error_not_cached (.error "bad abi") (.ok ⟨1⟩) "bad abi" rfl).2.2⟩

/-- C7: for in-range values the conversion is the fixed 32-byte zero-padded
big-endian representation, but for a decimal input of 2^256 (out of range
for 32 bytes) `GetHashStatus` **panics** inside `big.Int.FillBytes` instead
of returning a status error — the source has no range check before
`FillBytes`. -/
theorem getHashStatus_fillbytes_panics (env : StatusEnv)
    (hc : env.client = .ok ()) (ha : env.abis = .ok ()) :
    (∀ n : Nat, n < 2 ^ 256 →
        (FillBytes32 n).length = 32 ∧ beVal (FillBytes32 n) = n)
    ∧ GetHashStatus env
        "115792089237316195423570985008687907853269984665640564039457584007913129639936" =
      .panics "math/big: buffer too small to fit value" := by
  constructor
  · intro n hn
    have h256 : (256 : Nat) ^ 32 = 2 ^ 256 := by norm_num
    exact ⟨fillBytesBE_length 32 n, beVal_fillBytesBE 32 n (h256 ▸ hn)⟩
  · unfold GetHashStatus
    rw [hc, ha]
    rfl

/-- Witness for C7: the concrete environment with a healthy client and ABIs
panics on the decimal rendering of 2^256. -/
theorem getHashStatus_fillbytes_panics_witness :
    GetHashStatus statusEnvErr
        "115792089237316195423570985008687907853269984665640564039457584007913129639936" =
      .panics "math/big: buffer too small to fit value" :=
  (getHashStatus_fillbytes_panics statusEnvErr rfl rfl).2

end Zkp

namespace Zkp

/-- C8 counterexample: the feature-disabled denial is reachable (signing key
unset) and carries the human-readable message "ZKP authentication is not
configured", which is none of the reason codes the claim lists, so the
claim's "stable machine-readable reason code drawn from the set" is false
for this reachable denial. -/
theorem zkpOAuth_message_counterexample :
    (responseOf (ZkpOAuth loginEnvNoKey).1).success = false
    ∧ (responseOf (ZkpOAuth loginEnvNoKey).1).message ∉ reasonCodes := by
  decide

/-- C8 (amended): every denial response of the login flow has
`success: false`; the binding, parse, proof and membership denials carry the
stable codes INVALID_PAYLOAD, INVALID_ZKP_CODE, PROOF_INVALID and
NOT_CLUB_MEMBER; the remaining denials carry fixed human-readable strings
(English for the unconfigured feature, Chinese for deleted account, closed
registration, disabled account and session failure) or the persistence
layer's raw error text, not codes from the claimed set. -/
theorem zkpOAuth_denial_responses (env : LoginEnv) :
    ((∀ u t, (ZkpOAuth env).1 ≠ .success u t) → (responseOf (ZkpOAuth env).1).success = false)
    ∧ ((ZkpOAuth env).1 = .notConfigured →
        responseOf (ZkpOAuth env).1 = ⟨200, false, "ZKP authentication is not configured"⟩)
    ∧ ((ZkpOAuth env).1 = .invalidPayload →
        responseOf (ZkpOAuth env).1 = ⟨400, false, "INVALID_PAYLOAD"⟩)
    ∧ ((ZkpOAuth env).1 = .invalidZkpCode →
        responseOf (ZkpOAuth env).1 = ⟨400, false, "INVALID_ZKP_CODE"⟩)
    ∧ ((ZkpOAuth env).1 = .proofInvalid →
        responseOf (ZkpOAuth env).1 = ⟨401, false, "PROOF_INVALID"⟩)
    ∧ ((ZkpOAuth env).1 = .notClubMember →
        responseOf (ZkpOAuth env).1 = ⟨403, false, "NOT_CLUB_MEMBER"⟩)
    ∧ (∀ e, (ZkpOAuth env).1 = .fillError e →
        responseOf (ZkpOAuth env).1 = ⟨200, false, e⟩)
    ∧ ((ZkpOAuth env).1 = .accountDeleted →
        responseOf (ZkpOAuth env).1 = ⟨200, false, "用户已注销"⟩)
    ∧ ((ZkpOAuth env).1 = .registrationDisabled →
        responseOf (ZkpOAuth env).1 = ⟨200, false, "管理员关闭了新用户注册"⟩)
    ∧ (∀ e, (ZkpOAuth env).1 = .insertError e →
        responseOf (ZkpOAuth env).1 = ⟨200, false, e⟩)
    ∧ ((ZkpOAuth env).1 = .accountDisabled →
        responseOf (ZkpOAuth env).1 = ⟨200, false, "用户已被封禁"⟩)
    ∧ ((ZkpOAuth env).1 = .sessionError →
        responseOf (ZkpOAuth env).1 = ⟨200, false, "无法保存会话信息，请重试"⟩)
    ∧ (∀ u t, (ZkpOAuth env).1 = .success u t →
        responseOf (ZkpOAuth env).1 = ⟨200, true, ""⟩) := by
  generalize (ZkpOAuth env).1 = o
  cases o with
  | notConfigured => simp [responseOf]
  | invalidPayload => simp [responseOf]
  | invalidZkpCode => simp [responseOf]
  | proofInvalid => simp [responseOf]
  | notClubMember => simp [responseOf]
  | fillError e => simp [responseOf]
  | accountDeleted => simp [responseOf]
  | registrationDisabled => simp [responseOf]
  | insertError e => simp [responseOf]
  | accountDisabled => simp [responseOf]
  | sessionError => simp [responseOf]
  | success u t => exact ⟨fun h => absurd rfl (h u t), by simp [responseOf]⟩

/-- Witness for C8 (amended): with the signing key unset the run denies with
`success: false` and the fixed English message. -/
theorem zkpOAuth_denial_responses_witness :
    responseOf (ZkpOAuth loginEnvNoKey).1 =
      ⟨200, false, "ZKP authentication is not configured"⟩ :=
  (zkpOAuth_denial_responses loginEnvNoKey).2.1 (by decide)

/-- C9: a failed update of an existing account's hash identifier is logged
and non-fatal — the run still reaches the status check and, when enabled,
the session emission (the outcome is the disabled denial, the session-error
denial, or success for that very account) — whereas a failed insert of a
newly constructed account is fatal: the outcome is the insert-error denial,
no session save is attempted, and nothing was persisted (no successful
insert and no update at all). -/
theorem zkpOAuth_persistence_fatality (env : LoginEnv) :
    (∀ u, DbEffect.update u false ∈ (ZkpOAuth env).2 →
        (∃ m, DbEffect.logged ("Failed to update zkp hash: " ++ m) ∈ (ZkpOAuth env).2) ∧
        ((ZkpOAuth env).1 = .accountDisabled ∨ (ZkpOAuth env).1 = .sessionError ∨
          ∃ t, (ZkpOAuth env).1 = .success u t))
    ∧ (∀ u i, DbEffect.insert u i false ∈ (ZkpOAuth env).2 →
        (∃ e, (ZkpOAuth env).1 = .insertError e) ∧
        (∀ b, DbEffect.sessionSave b ∉ (ZkpOAuth env).2) ∧
        (∀ u2 i2, DbEffect.insert u2 i2 true ∉ (ZkpOAuth env).2) ∧
        (∀ u2 b, DbEffect.update u2 b ∉ (ZkpOAuth env).2)) := by
  rcases zkpOAuth_shape env with ⟨o, ho, _⟩ | ⟨m, ho⟩ | ⟨user, t, m, ho⟩ | ⟨user, t, ho⟩ |
    ⟨user, inviter, t, req, payload, hb, hp, hst, hrl, hgr, hun, hdn, hzk, hrest⟩
  · simp [ho]
  · simp [ho]
  · rcases finishLogin_cases env user t
        [.update user false, .logged ("Failed to update zkp hash: " ++ m)] with
      ⟨hs, hfl⟩ | hfl | hfl <;> rw [ho, hfl] <;> constructor
    · intro u hu
      exact ⟨⟨m, by simp⟩, Or.inl rfl⟩
    · intro u i hi
      simp at hi
    · intro u hu
      exact ⟨⟨m, by simp⟩, Or.inr (Or.inl rfl)⟩
    · intro u i hi
      simp at hi
    · intro u hu
      simp at hu
      exact ⟨⟨m, by simp⟩, Or.inr (Or.inr ⟨t, by rw [hu]⟩)⟩
    · intro u i hi
      simp at hi
  · rcases finishLogin_cases env user t [.update user true] with
      ⟨hs, hfl⟩ | hfl | hfl <;> rw [ho, hfl] <;> constructor <;>
      first
        | (intro u hu; simp at hu)
        | (intro u i hi; simp at hi)
  · rcases hrest with ⟨e, ho⟩ | ho
    · rw [ho]
      constructor
      · intro u hu
        simp at hu
      · intro u i hi
        refine ⟨⟨e, rfl⟩, ?_, ?_, ?_⟩
        · intro b hc; simp at hc
        · intro u2 i2 hc; simp at hc
        · intro u2 b hc; simp at hc
    · rcases finishLogin_cases env user t [.insert user inviter true] with
        ⟨hs, hfl⟩ | hfl | hfl <;> rw [ho, hfl] <;> constructor <;>
        first
          | (intro u hu; simp at hu)
          | (intro u i hi; simp at hi)

/-- Witness for C9: with a failing insert the run ends in the insert-error
denial and never attempts a session save. -/
theorem zkpOAuth_persistence_fatality_witness :
    (∃ e, (ZkpOAuth loginEnvInsertFail).1 = LoginOutcome.insertError e)
    ∧ (∀ b, DbEffect.sessionSave b ∉ (ZkpOAuth loginEnvInsertFail).2) :=
  ⟨((zkpOAuth_persistence_fatality loginEnvInsertFail).2 insertedUser0 0 (by decide)).1,
   ((zkpOAuth_persistence_fatality loginEnvInsertFail).2 insertedUser0 0 (by decide)).2.1⟩

/-- C10: every account the login flow hands to the insert call is built with
enabled status, the common-user role, the fixed group "vip", username and
display name equal to the abbreviated wallet address, and a zkpHash equal to
the decimal rendering of the parsed payload's `Input[0]`; consequently a
successful insert can only be followed by the session-error denial or
success (the account-disabled denial is unreachable on the new-account
path), and the account-disabled denial implies an update — that is, a
pre-existing account. -/
theorem zkpOAuth_new_account_shape (env : LoginEnv) :
    (∀ u i b, DbEffect.insert u i b ∈ (ZkpOAuth env).2 →
        u.Status = UserStatusEnabled ∧ u.Role = RoleCommonUser ∧ u.Group = "vip" ∧
        u.Username = abbreviateAddress u.WalletAddress ∧ u.DisplayName = u.Username ∧
        ∃ req payload, env.bindResult = .ok req ∧ ParseZkpCode req.zkpCode = .ok payload ∧
          u.ZkpHash = bigIntString payload.Input)
    ∧ (∀ u i, DbEffect.insert u i true ∈ (ZkpOAuth env).2 →
        (ZkpOAuth env).1 = .sessionError ∨ ∃ t, (ZkpOAuth env).1 = .success u t)
    ∧ ((ZkpOAuth env).1 = .accountDisabled →
        ∃ u b, DbEffect.update u b ∈ (ZkpOAuth env).2) := by
  rcases zkpOAuth_shape env with ⟨o, ho, hids⟩ | ⟨m, ho⟩ | ⟨user, t, m, ho⟩ | ⟨user, t, ho⟩ |
    ⟨user, inviter, t, req, payload, hb, hp, hst, hrl, hgr, hun, hdn, hzk, hrest⟩
  · refine ⟨?_, ?_, ?_⟩
    · intro u i b hu; rw [ho] at hu; simp at hu
    · intro u i hu; rw [ho] at hu; simp at hu
    · intro hc
      rw [ho] at hc
      rcases hids with h | h | h | h | ⟨e, h⟩ | h | h <;> (subst h; cases hc)
  · refine ⟨?_, ?_, ?_⟩
    · intro u i b hu; rw [ho] at hu; simp at hu
    · intro u i hu; rw [ho] at hu; simp at hu
    · intro hc; rw [ho] at hc; cases hc
  · rcases finishLogin_cases env user t
        [.update user false, .logged ("Failed to update zkp hash: " ++ m)] with
      ⟨hs, hfl⟩ | hfl | hfl <;> rw [ho, hfl] <;> refine ⟨?_, ?_, ?_⟩
    · intro u i b hu; simp at hu
    · intro u i hu; simp at hu
    · intro _; exact ⟨user, false, by simp⟩
    · intro u i b hu; simp at hu
    · intro u i hu; simp at hu
    · intro hc; cases hc
    · intro u i b hu; simp at hu
    · intro u i hu; simp at hu
    · intro hc; cases hc
  · rcases finishLogin_cases env user t [.update user true] with
      ⟨hs, hfl⟩ | hfl | hfl <;> rw [ho, hfl] <;> refine ⟨?_, ?_, ?_⟩
    · intro u i b hu; simp at hu
    · intro u i hu; simp at hu
    · intro _; exact ⟨user, true, by simp⟩
    · intro u i b hu; simp at hu
    · intro u i hu; simp at hu
    · intro hc; cases hc
    · intro u i b hu; simp at hu
    · intro u i hu; simp at hu
    · intro hc; cases hc
  · rcases hrest with ⟨e, ho⟩ | ho
    · rw [ho]
      refine ⟨?_, ?_, ?_⟩
      · intro u i b hu
        simp at hu
        obtain ⟨hu1, hu2, hu3⟩ := hu
        subst hu1
        exact ⟨hst, hrl, hgr, hun, hdn, req, payload, hb, hp, hzk⟩
      · intro u i hu; simp at hu
      · intro hc; cases hc
    · rcases finishLogin_cases env user t [.insert user inviter true] with
        ⟨hs, hfl⟩ | hfl | hfl
      · exact absurd hst hs
      · rw [ho, hfl]
        refine ⟨?_, ?_, ?_⟩
        · intro u i b hu
          simp at hu
          obtain ⟨hu1, hu2, hu3⟩ := hu
          subst hu1
          exact ⟨hst, hrl, hgr, hun, hdn, req, payload, hb, hp, hzk⟩
        · intro u i hu; exact Or.inl rfl
        · intro hc; cases hc
      · rw [ho, hfl]
        refine ⟨?_, ?_, ?_⟩
        · intro u i b hu
          simp at hu
          obtain ⟨hu1, hu2, hu3⟩ := hu
          subst hu1
          exact ⟨hst, hrl, hgr, hun, hdn, req, payload, hb, hp, hzk⟩
        · intro u i hu
          simp at hu
          exact Or.inr ⟨t, by rw [hu.1]⟩
        · intro hc; cases hc

/-- Witness for C10: on the fully successful first-time login the inserted
account leads to success for that very account. -/
theorem zkpOAuth_new_account_shape_witness :
    (ZkpOAuth loginEnvHappy).1 = LoginOutcome.sessionError ∨
      ∃ t, (ZkpOAuth loginEnvHappy).1 = LoginOutcome.success insertedUser0 t :=
  (zkpOAuth_new_account_shape loginEnvHappy).2.1 insertedUser0 0 (by decide)

end Zkp
